import Mathlib

/-!
Shallow embedding of the authorization core of the photo-face-magic-flow
repository: the database schema of the initial migration, the role-lookup
functions, the row-level-security policy expressions in their final
(post-migration) state, and the security-definer functions
`can_access_face_match`, `get_user_face_matches`, `get_biometric_scan_data`,
`get_photo_with_secure_face_data` and `get_safe_photos`.

UUID columns are modelled as `Nat`, timestamps as `Int` (seconds),
`jsonb` payload columns as opaque `String` values, and the implicit
`auth.uid()` of every request as an `Option UserId` argument (`none` for an
unauthenticated caller).  Each table is a list of rows; the whole stored
state is a `DBState`.  SQL `NULL` on nullable columns is `Option.none`.
-/

namespace PhotoFaceMagic

abbrev UserId := Nat
abbrev EventId := Nat
abbrev PhotoId := Nat
abbrev MatchId := Nat
abbrev Time := Int
abbrev Json := String

/-- The `user_role` enum of the initial migration. -/
inductive Role where
  | admin
  | editor
  | viewer
  deriving DecidableEq, Repr

/-- The `event_visibility` enum (`public` and `private` are Lean keywords,
hence the `V` suffix on the constructor names). -/
inductive Visibility where
  | publicV
  | privateV
  | hybridV
  deriving DecidableEq, Repr

/-- Activity kinds appearing in the source: the nine values of the
`activity_type` enum of the initial schema, together with the four biometric
audit kinds that the final `can_access_face_match` migration writes into
`activity_logs.activity_type`. -/
inductive ActivityType where
  | login
  | logout
  | event_created
  | event_updated
  | photo_uploaded
  | face_scanned
  | user_role_changed
  | user_created
  | user_deleted
  | unauthorized_biometric_access
  | biometric_access_rate_limited
  | invalid_biometric_access
  | biometric_access_attempt
  deriving DecidableEq, Repr

/-- A row of `public.profiles`. -/
structure Profile where
  id : Nat
  user_id : UserId
  full_name : Option String
  email : Option String
  role : Role
  status : Option String
  deriving DecidableEq, Repr

/-- A row of `public.events`. -/
structure Event where
  id : EventId
  name : String
  description : Option String
  start_date : Time
  end_date : Option Time
  visibility : Visibility
  created_by : UserId
  created_at : Time
  deriving DecidableEq, Repr

/-- A row of `public.photos`.  `face_data` is the sensitive biometric
payload. -/
structure Photo where
  id : PhotoId
  event_id : EventId
  file_name : String
  file_path : String
  file_size : Option Int
  mime_type : Option String
  faces_detected : Option Int
  face_data : Option Json
  uploaded_by : UserId
  created_at : Time
  deriving DecidableEq, Repr

/-- A row of `public.face_matches`.  `face_scan_data` is the sensitive
biometric payload; `confidence_score` (a `DECIMAL(5,2)`) is modelled in
hundredths. -/
structure FaceMatch where
  id : MatchId
  user_id : UserId
  photo_id : PhotoId
  confidence_score : Option Int
  face_scan_data : Option Json
  matched_at : Time
  deriving DecidableEq, Repr

/-- A row of `public.activity_logs`.  The `metadata` jsonb written by
`can_access_face_match` always contains the `target_user_id` and
`face_match_id` keys; the metadata is modelled as that pair (the remaining
jsonb keys - timestamps, decision flags, ip hash - are derived data the
claims never consult). -/
structure ActivityLog where
  id : Nat
  user_id : Option UserId
  activity_type : ActivityType
  description : String
  metadata : Option (UserId × MatchId)
  created_at : Time
  deriving DecidableEq, Repr

/-- The five tables of the schema. -/
structure DBState where
  profiles : List Profile
  events : List Event
  photos : List Photo
  face_matches : List FaceMatch
  activity_logs : List ActivityLog
  deriving DecidableEq, Repr

/-! ## Identity and role resolver (`get_user_role`, `has_role`,
`is_admin_or_editor`) -/

/-- `public.get_user_role`: `SELECT role FROM profiles WHERE user_id = $1`.
A `NULL` argument or a missing profile yields `NULL` (`none`). -/
def get_user_role (s : DBState) (uid : Option UserId) : Option Role :=
  match uid with
  | none => none
  | some u => (s.profiles.find? (fun p => p.user_id == u)).map (fun p => p.role)

/-- `public.has_role`: `EXISTS (SELECT 1 FROM profiles WHERE user_id = _user_id
AND role = _role)`.  With a `NULL` caller the equality matches no row. -/
def has_role (s : DBState) (uid : Option UserId) (r : Role) : Bool :=
  match uid with
  | none => false
  | some u => s.profiles.any (fun p => p.user_id == u && p.role == r)

/-- `public.is_admin_or_editor`: `EXISTS (... role IN ('admin','editor'))`. -/
def is_admin_or_editor (s : DBState) (uid : Option UserId) : Bool :=
  match uid with
  | none => false
  | some u => s.profiles.any
      (fun p => p.user_id == u && (p.role == Role.admin || p.role == Role.editor))

/-! ## Row-level-security policy expressions (final migration state) -/

/-- Events SELECT policy "Everyone can view public events":
`visibility = 'public' OR auth.uid() IS NOT NULL`. -/
def events_select_policy (caller : Option UserId) (e : Event) : Bool :=
  e.visibility == Visibility.publicV || caller.isSome

/-- Events INSERT policy "Admins and editors can create events":
`WITH CHECK (is_admin_or_editor(auth.uid()))`.  The new row is available to
the check but the expression does not mention it. -/
def events_insert_check (s : DBState) (caller : Option UserId) (_row : Event) : Bool :=
  is_admin_or_editor s caller

/-- Photos INSERT policy "Admins and editors can upload photos":
`WITH CHECK (is_admin_or_editor(auth.uid()))`. -/
def photos_insert_check (s : DBState) (caller : Option UserId) (_row : Photo) : Bool :=
  is_admin_or_editor s caller

/-- Photos SELECT policy "Secure photo access with biometric protection"
(migration 20250826083004, the final photos SELECT policy): the row is
visible when its parent event is visible; the `USING` expression filters
rows only and performs no column redaction. -/
def photos_select_policy (s : DBState) (caller : Option UserId) (p : Photo) : Bool :=
  s.events.any (fun e =>
    e.id == p.event_id && (e.visibility == Visibility.publicV || caller.isSome))

/-- A direct `SELECT *` on `public.photos` under row-level security: the
full rows (all columns, `face_data` included) admitted by the SELECT
policy. -/
def photos_table_read (s : DBState) (caller : Option UserId) : List Photo :=
  s.photos.filter (photos_select_policy s caller)

/-- The disjunction of the two permissive UPDATE policies on
`public.profiles`: "Users can update their own profile"
(`USING (auth.uid() = user_id)`) and "Admins can update any profile"
(`USING (has_role(auth.uid(), 'admin'))`). -/
def profiles_update_policy (s : DBState) (caller : Option UserId) (row : Profile) : Bool :=
  caller == some row.user_id || has_role s caller Role.admin

/-- Admission of an UPDATE of `oldRow` into `newRow` on `public.profiles`.
Neither UPDATE policy declares a `WITH CHECK`, so each policy's `USING`
expression doubles as its check on the updated row: the update is admitted
when some policy admits the old row and some policy admits the new row. -/
def profiles_update_admitted (s : DBState) (caller : Option UserId)
    (oldRow newRow : Profile) : Bool :=
  profiles_update_policy s caller oldRow && profiles_update_policy s caller newRow

/-! ## `can_access_face_match` (final migrated version, with rate limiting) -/

/-- Fresh id for an appended `activity_logs` row (stands in for
`gen_random_uuid()`; the claims never consult log ids). -/
def next_log_id (s : DBState) : Nat :=
  s.activity_logs.length

/-- The rate-limit count of `can_access_face_match`: the number of
`activity_logs` rows with `user_id = current_user_id`,
`activity_type = 'biometric_access_attempt'` and
`created_at > now() - interval '1 minute'`. -/
def recent_attempts (s : DBState) (u : UserId) (now : Time) : Nat :=
  (s.activity_logs.filter (fun l =>
    l.user_id == some u
    && l.activity_type == ActivityType.biometric_access_attempt
    && now - 60 < l.created_at)).length

/-- An `INSERT INTO activity_logs ...; RETURN decision` pair, the shape of
every exit of `can_access_face_match`: the decision together with the state
whose only change is the appended log row. -/
def log_and_return (s : DBState) (decision : Bool) (l : ActivityLog) : Bool × DBState :=
  (decision, { s with activity_logs := s.activity_logs ++ [l] })

/-- `public.can_access_face_match(match_user_id, match_id)`, final migrated
version.  Returns the boolean decision together with the updated stored
state (the function's only writes are `INSERT`s into `activity_logs`).
The implicit `auth.uid()` and `now()` of the evaluation are the `caller`
and `now` arguments. -/
def can_access_face_match (s : DBState) (caller : Option UserId) (now : Time)
    (match_user_id : UserId) (match_id : MatchId) : Bool × DBState :=
  match caller with
  | none =>
      log_and_return s false
        { id := next_log_id s
          user_id := none
          activity_type := ActivityType.unauthorized_biometric_access
          description := "Attempted unauthorized access to facial recognition data"
          metadata := some (match_user_id, match_id)
          created_at := now }
  | some current_user_id =>
      if 10 < recent_attempts s current_user_id now then
        log_and_return s false
          { id := next_log_id s
            user_id := some current_user_id
            activity_type := ActivityType.biometric_access_rate_limited
            description := "Rate limit exceeded for biometric data access"
            metadata := some (match_user_id, match_id)
            created_at := now }
      else if !(s.face_matches.any fun fm =>
          fm.id == match_id && fm.user_id == match_user_id) then
        log_and_return s false
          { id := next_log_id s
            user_id := some current_user_id
            activity_type := ActivityType.invalid_biometric_access
            description := "Attempted access to invalid or non-existent face match"
            metadata := some (match_user_id, match_id)
            created_at := now }
      else
        log_and_return s
          (has_role s (some current_user_id) Role.admin || current_user_id == match_user_id)
          { id := next_log_id s
            user_id := some current_user_id
            activity_type := ActivityType.biometric_access_attempt
            description := "Attempted to access facial recognition data"
            metadata := some (match_user_id, match_id)
            created_at := now }

/-- Iterated calls to `can_access_face_match` by a fixed caller against a
fixed target, one call per listed timestamp, threading the stored state:
returns the list of decisions and the final state. -/
def run_access_calls (s : DBState) (caller : Option UserId)
    (match_user_id : UserId) (match_id : MatchId) : List Time → List Bool × DBState
  | [] => ([], s)
  | t :: ts =>
      let r := can_access_face_match s caller t match_user_id match_id
      let rest := run_access_calls r.2 caller match_user_id match_id ts
      (r.1 :: rest.1, rest.2)

/-! ## Redacting retrieval functions -/

/-- `public.get_photo_with_secure_face_data(photo_row)`, final version:
returns the row with `face_data` nulled unless the caller is admin or the
uploader. -/
def get_photo_with_secure_face_data (s : DBState) (caller : Option UserId)
    (photo_row : Photo) : Photo :=
  { photo_row with face_data :=
      if (has_role s caller Role.admin || caller == some photo_row.uploaded_by) then
        photo_row.face_data
      else none }

/-- The row shape returned by `public.get_safe_photos`: every `photos`
column except the biometric `face_data`. -/
structure SafePhoto where
  id : PhotoId
  event_id : EventId
  file_name : String
  file_path : String
  mime_type : Option String
  file_size : Option Int
  uploaded_by : UserId
  created_at : Time
  faces_detected : Option Int
  deriving DecidableEq, Repr

/-- Projection of a `photos` row onto the `get_safe_photos` column list. -/
def toSafePhoto (p : Photo) : SafePhoto :=
  { id := p.id
    event_id := p.event_id
    file_name := p.file_name
    file_path := p.file_path
    mime_type := p.mime_type
    file_size := p.file_size
    uploaded_by := p.uploaded_by
    created_at := p.created_at
    faces_detected := p.faces_detected }

/-- `public.get_safe_photos(event_id_filter DEFAULT NULL)` (final photo
list path, migration 20250827082516): photos joined to their parent event,
kept when `e.visibility = 'public' OR auth.uid() IS NOT NULL` and when the
optional event filter is null or matches, ordered by `created_at DESC`. -/
def get_safe_photos (s : DBState) (caller : Option UserId)
    (event_id_filter : Option EventId) : List SafePhoto :=
  ((s.photos.filter (fun p =>
      s.events.any (fun e =>
        e.id == p.event_id && (e.visibility == Visibility.publicV || caller.isSome))
      && (event_id_filter == none || event_id_filter == some p.event_id))).insertionSort
    (fun a b => b.created_at ≤ a.created_at)).map toSafePhoto

/-- The row shape returned by `public.get_user_face_matches`: every
`face_matches` column except the biometric `face_scan_data`. -/
structure SafeFaceMatch where
  id : MatchId
  user_id : UserId
  photo_id : PhotoId
  confidence_score : Option Int
  matched_at : Time
  deriving DecidableEq, Repr

/-- Projection of a `face_matches` row onto the `get_user_face_matches`
column list. -/
def toSafeFaceMatch (fm : FaceMatch) : SafeFaceMatch :=
  { id := fm.id
    user_id := fm.user_id
    photo_id := fm.photo_id
    confidence_score := fm.confidence_score
    matched_at := fm.matched_at }

/-- `public.get_user_face_matches(target_user_id DEFAULT NULL)`: with a null
target, the caller's own matches; with a target, the matches admitted by
the `can_access_face_match` decision (whose audit-log side effect is
modelled separately in `can_access_face_match` itself).  Ordered by
`matched_at DESC`. -/
def get_user_face_matches (s : DBState) (caller : Option UserId) (now : Time)
    (target_user_id : Option UserId) : List SafeFaceMatch :=
  ((s.face_matches.filter (fun fm =>
      match target_user_id with
      | none => some fm.user_id == caller
      | some t => (can_access_face_match s caller now t fm.id).1)).insertionSort
    (fun a b => b.matched_at ≤ a.matched_at)).map toSafeFaceMatch

/-- `public.get_biometric_scan_data(match_id)`: scalar SQL function; with no
matching row the scalar result is `NULL`, otherwise
`CASE WHEN has_role(auth.uid(),'admin') THEN face_scan_data ELSE NULL END`. -/
def get_biometric_scan_data (s : DBState) (caller : Option UserId)
    (match_id : MatchId) : Option Json :=
  match s.face_matches.find? (fun fm => fm.id == match_id) with
  | none => none
  | some fm =>
      if has_role s caller Role.admin then fm.face_scan_data else none

/-! ## Sorting relation instances for `ORDER BY ... DESC` -/

instance : IsTotal Photo (fun a b => b.created_at ≤ a.created_at) :=
  ⟨fun a b => le_total b.created_at a.created_at⟩

instance : IsTrans Photo (fun a b => b.created_at ≤ a.created_at) :=
  ⟨fun _ _ _ h1 h2 => le_trans h2 h1⟩

/-! ## Concrete rows and states used to evaluate the policies at specific
inputs -/

/-- A public event created by user 1. -/
def event_pub1 : Event :=
  { id := 1, name := "launch", description := none, start_date := 0,
    end_date := none, visibility := Visibility.publicV, created_by := 1,
    created_at := 0 }

/-- A photo of `event_pub1` uploaded by user 1 carrying a biometric
`face_data` payload. -/
def photo_fd1 : Photo :=
  { id := 1, event_id := 1, file_name := "a.jpg", file_path := "photos/a.jpg",
    file_size := none, mime_type := none, faces_detected := some 1,
    face_data := some "facevec", uploaded_by := 1, created_at := 0 }

/-- State for evaluating the photos SELECT policy: one public event, one
photo with biometric data uploaded by user 1, and user 2 holding the
viewer role. -/
def s_c1 : DBState :=
  { profiles := [{ id := 0, user_id := 2, full_name := none, email := none,
                   role := Role.viewer, status := none }],
    events := [event_pub1], photos := [photo_fd1], face_matches := [],
    activity_logs := [] }

/-- The profile row of user 1 with the viewer role. -/
def profile_c5 : Profile :=
  { id := 0, user_id := 1, full_name := none, email := none,
    role := Role.viewer, status := none }

/-- State for evaluating the profiles UPDATE policies: only user 1's
viewer profile. -/
def s_c5 : DBState :=
  { profiles := [profile_c5], events := [], photos := [], face_matches := [],
    activity_logs := [] }

/-- State for evaluating the rate limiter: user 1 is a viewer who owns
face match 2; no activity has been logged yet. -/
def s_c4 : DBState :=
  { profiles := [{ id := 0, user_id := 1, full_name := none, email := none,
                   role := Role.viewer, status := none }],
    events := [], photos := [],
    face_matches := [{ id := 2, user_id := 1, photo_id := 3,
                       confidence_score := none, face_scan_data := none,
                       matched_at := 0 }],
    activity_logs := [] }

/-- A face match owned by user 1 carrying a biometric scan payload. -/
def fm_c7 : FaceMatch :=
  { id := 5, user_id := 1, photo_id := 3, confidence_score := none,
    face_scan_data := some "scanvec", matched_at := 0 }

/-- State for evaluating `get_biometric_scan_data`: user 1 is an admin,
user 2 a viewer, and `fm_c7` is stored. -/
def s_c7 : DBState :=
  { profiles := [{ id := 0, user_id := 1, full_name := none, email := none,
                   role := Role.admin, status := none },
                 { id := 1, user_id := 2, full_name := none, email := none,
                   role := Role.viewer, status := none }],
    events := [], photos := [], face_matches := [fm_c7], activity_logs := [] }

/-- A public event used for the unauthenticated read paths. -/
def event_c8 : Event :=
  { id := 1, name := "expo", description := none, start_date := 0,
    end_date := none, visibility := Visibility.publicV, created_by := 1,
    created_at := 0 }

/-- A photo of `event_c8` without biometric data. -/
def photo_c8 : Photo :=
  { id := 1, event_id := 1, file_name := "b.jpg", file_path := "photos/b.jpg",
    file_size := none, mime_type := none, faces_detected := none,
    face_data := none, uploaded_by := 1, created_at := 0 }

/-- State for evaluating the unauthenticated read paths: one public event
with one photo, and no profiles at all. -/
def s_c8 : DBState :=
  { profiles := [], events := [event_c8], photos := [photo_c8],
    face_matches := [], activity_logs := [] }

/-- State for evaluating the insert checks: user 1 is an editor. -/
def s_c10 : DBState :=
  { profiles := [{ id := 0, user_id := 1, full_name := none, email := none,
                   role := Role.editor, status := none }],
    events := [], photos := [], face_matches := [], activity_logs := [] }

/-- An event row whose `created_by` is user 2, not the inserting caller. -/
def event_c10 : Event :=
  { id := 7, name := "gala", description := none, start_date := 0,
    end_date := none, visibility := Visibility.privateV, created_by := 2,
    created_at := 0 }

/-- A photo row whose `uploaded_by` is user 3, not the inserting caller. -/
def photo_c10 : Photo :=
  { id := 9, event_id := 7, file_name := "c.jpg", file_path := "photos/c.jpg",
    file_size := none, mime_type := none, faces_detected := none,
    face_data := none, uploaded_by := 3, created_at := 0 }

/-! ## Theorems -/

/-- Claim C6: the events read rule admits an event to a caller exactly when
the event's visibility is `public` or the caller is authenticated; the rule
never consults the caller's role (its definition takes no stored state),
and replacing a `private` visibility by `hybrid` never changes the
decision. -/
theorem events_select_iff_public_or_authenticated (caller : Option UserId) (e : Event) :
    (events_select_policy caller e = true ↔
      (e.visibility = Visibility.publicV ∨ caller ≠ none))
    ∧ events_select_policy caller { e with visibility := Visibility.privateV }
        = events_select_policy caller { e with visibility := Visibility.hybridV } := by
  constructor
  · simp [events_select_policy, Option.isSome_iff_ne_none]
  · rfl

/-- Claim C10: the insert admission checks for events and photos test only
`is_admin_or_editor`; any caller passing that predicate may insert an event
whose `created_by`, or a photo whose `uploaded_by`, differs from the
caller. -/
theorem insert_checks_ignore_ownership (s : DBState) (u : UserId)
    (erow : Event) (prow : Photo)
    (h : is_admin_or_editor s (some u) = true)
    (_he : erow.created_by ≠ u) (_hp : prow.uploaded_by ≠ u) :
    events_insert_check s (some u) erow = true
    ∧ photos_insert_check s (some u) prow = true :=
  ⟨h, h⟩

/-- Witness for `insert_checks_ignore_ownership`: editor 1 may insert an
event created_by 2 and a photo uploaded_by 3. -/
theorem insert_checks_ignore_ownership_witness :
    events_insert_check s_c10 (some 1) event_c10 = true
    ∧ photos_insert_check s_c10 (some 1) photo_c10 = true :=
  insert_checks_ignore_ownership s_c10 1 event_c10 photo_c10
    (by decide) (by decide) (by decide)

/-- Claim C1, evaluated at the failing input: user 2 is a viewer, is not
the uploader of any stored photo, yet a direct `SELECT` on the photos table
under the final SELECT policy returns the photo with its `face_data`
payload intact - the policy filters rows and redacts nothing, so the
claimed invariant fails on the direct-table read path. -/
theorem photos_table_read_leaks_face_data :
    has_role s_c1 (some 2) Role.admin = false
    ∧ (∀ p ∈ s_c1.photos, p.uploaded_by ≠ 2)
    ∧ (photos_table_read s_c1 (some 2)).map (fun p => p.face_data)
        = [some "facevec"] := by
  decide

/-- Claim C5, evaluated at the failing input: user 1, a viewer updating
their own profile, is admitted by the UPDATE policies even though the
update changes the `role` field from viewer to admin - neither policy
carries a `WITH CHECK` constraining the role column. -/
theorem profiles_update_admits_role_change :
    profiles_update_admitted s_c5 (some 1) profile_c5
        { profile_c5 with role := Role.admin } = true
    ∧ has_role s_c5 (some 1) Role.admin = false
    ∧ ({ profile_c5 with role := Role.admin }).role ≠ profile_c5.role := by
  decide

/-- Claim C4, counterexample: the match owner (user 1, authenticated,
no earlier attempts in the window) calls `can_access_face_match` eleven
times within 30 seconds; all eleven calls - the eleventh included - return
`true`, refuting the claim that the eleventh call is denied.  The rate
limiter only denies a call preceded by strictly more than ten logged
attempts in the window. -/
theorem eleventh_call_is_granted :
    (run_access_calls s_c4 (some 1) 1 2
        [0, 1, 2, 3, 4, 5, 6, 7, 8, 9, 10]).1
      = [true, true, true, true, true, true, true, true, true, true, true] := by
  decide

/-- Claim C4 as amended: under the same setup all eleven calls within the
window are granted, and it is the twelfth call that is denied and appends
an `activity_logs` row recording the rate-limit denial. -/
theorem twelfth_call_is_rate_limited :
    (run_access_calls s_c4 (some 1) 1 2
        [0, 1, 2, 3, 4, 5, 6, 7, 8, 9, 10, 11]).1
      = [true, true, true, true, true, true, true, true, true, true, true, false]
    ∧ ((run_access_calls s_c4 (some 1) 1 2
        [0, 1, 2, 3, 4, 5, 6, 7, 8, 9, 10, 11]).2).activity_logs.getLast?.map
          (fun l => l.activity_type)
        = some ActivityType.biometric_access_rate_limited := by
  decide

/-- Claim C2: `can_access_face_match` grants access exactly when the caller
is authenticated, is an admin or equals the match owner, the referenced
`face_matches` row exists with that owner, and the caller has at most ten
logged biometric access attempts in the trailing 60 seconds. -/
theorem can_access_face_match_true_iff (s : DBState) (caller : Option UserId)
    (now : Time) (muid : UserId) (mid : MatchId) :
    (can_access_face_match s caller now muid mid).1 = true ↔
      ∃ u, caller = some u
        ∧ (has_role s (some u) Role.admin = true ∨ u = muid)
        ∧ (∃ fm ∈ s.face_matches, fm.id = mid ∧ fm.user_id = muid)
        ∧ recent_attempts s u now ≤ 10 := by
  cases caller with
  | none => simp [can_access_face_match, log_and_return]
  | some u =>
      by_cases hrl : 10 < recent_attempts s u now
      · have hL : (can_access_face_match s (some u) now muid mid).1 = false := by
          simp [can_access_face_match, log_and_return, hrl]
        rw [hL]
        simp only [Bool.false_eq_true, false_iff]
        rintro ⟨u', hu, -, -, hle⟩
        cases hu
        omega
      · by_cases hv : (s.face_matches.any fun fm =>
            fm.id == mid && fm.user_id == muid) = true
        · have hL : (can_access_face_match s (some u) now muid mid).1
              = (has_role s (some u) Role.admin || u == muid) := by
            simp [can_access_face_match, log_and_return, hrl, hv]
          rw [hL]
          constructor
          · intro h
            rcases List.any_eq_true.mp hv with ⟨fm, hmem, hfm⟩
            refine ⟨u, rfl, by simpa using h, ⟨fm, hmem, by simpa using hfm⟩, by omega⟩
          · rintro ⟨u', hu, hadm, -, -⟩
            cases hu
            simp only [Bool.or_eq_true, beq_iff_eq]
            exact hadm
        · have hv' : (s.face_matches.any fun fm =>
              fm.id == mid && fm.user_id == muid) = false := by
            simpa using hv
          have hL : (can_access_face_match s (some u) now muid mid).1 = false := by
            simp [can_access_face_match, log_and_return, hrl, hv']
          rw [hL]
          simp only [Bool.false_eq_true, false_iff]
          rintro ⟨u', hu, -, ⟨fm, hmem, hid, huid⟩, -⟩
          exact hv (List.any_eq_true.mpr ⟨fm, hmem, by simp [hid, huid]⟩)

/-- Claim C3: every call to `can_access_face_match`, whatever its outcome,
appends exactly one row to `activity_logs` and leaves the four other tables
unchanged. -/
theorem can_access_face_match_appends_one_log (s : DBState)
    (caller : Option UserId) (now : Time) (muid : UserId) (mid : MatchId) :
    (∃ l, ((can_access_face_match s caller now muid mid).2).activity_logs
        = s.activity_logs ++ [l])
    ∧ ((can_access_face_match s caller now muid mid).2).profiles = s.profiles
    ∧ ((can_access_face_match s caller now muid mid).2).events = s.events
    ∧ ((can_access_face_match s caller now muid mid).2).photos = s.photos
    ∧ ((can_access_face_match s caller now muid mid).2).face_matches
        = s.face_matches := by
  have key : ∃ l, (can_access_face_match s caller now muid mid).2
      = { s with activity_logs := s.activity_logs ++ [l] } := by
    cases caller with
    | none => exact ⟨_, rfl⟩
    | some u =>
        simp only [can_access_face_match]
        split
        · exact ⟨_, rfl⟩
        · split
          · exact ⟨_, rfl⟩
          · exact ⟨_, rfl⟩
  rcases key with ⟨l, hl⟩
  exact ⟨⟨l, by rw [hl]⟩, by rw [hl], by rw [hl], by rw [hl], by rw [hl]⟩

/-- Claim C7: `get_biometric_scan_data` returns the stored `face_scan_data`
payload exactly when the caller is an admin and a `face_matches` row with
the requested id exists; a non-admin caller and a missing row both yield
`null`, so a missing match and a forbidden access are indistinguishable. -/
theorem get_biometric_scan_data_admin_only (s : DBState)
    (caller : Option UserId) (mid : MatchId) :
    ((∃ fm ∈ s.face_matches, fm.id = mid) →
        has_role s caller Role.admin = true →
        ∃ fm ∈ s.face_matches, fm.id = mid
          ∧ get_biometric_scan_data s caller mid = fm.face_scan_data)
    ∧ (has_role s caller Role.admin = false →
        get_biometric_scan_data s caller mid = none)
    ∧ ((¬ ∃ fm ∈ s.face_matches, fm.id = mid) →
        get_biometric_scan_data s caller mid = none) := by
  refine ⟨?_, ?_, ?_⟩
  · rintro ⟨fm0, hmem0, hid0⟩ hadm
    cases hfind : s.face_matches.find? (fun fm => fm.id == mid) with
    | none =>
        exact absurd (by simp [hid0]) (List.find?_eq_none.mp hfind fm0 hmem0)
    | some fm =>
        refine ⟨fm, List.mem_of_find?_eq_some hfind, ?_, ?_⟩
        · simpa using List.find?_some hfind
        · simp [get_biometric_scan_data, hfind, hadm]
  · intro hadm
    cases hfind : s.face_matches.find? (fun fm => fm.id == mid) with
    | none => simp [get_biometric_scan_data, hfind]
    | some fm => simp [get_biometric_scan_data, hfind, hadm]
  · intro hnone
    have hfind : s.face_matches.find? (fun fm => fm.id == mid) = none :=
      List.find?_eq_none.mpr fun fm hmem hp =>
        hnone ⟨fm, hmem, by simpa using hp⟩
    simp [get_biometric_scan_data, hfind]

/-- Witness for `get_biometric_scan_data_admin_only`: admin 1 receives the
stored scan payload of match 5, viewer 2 receives `null` for the same
match. -/
theorem get_biometric_scan_data_admin_only_witness :
    (∃ fm ∈ s_c7.face_matches, fm.id = 5
        ∧ get_biometric_scan_data s_c7 (some 1) 5 = fm.face_scan_data)
    ∧ get_biometric_scan_data s_c7 (some 2) 5 = none :=
  ⟨(get_biometric_scan_data_admin_only s_c7 (some 1) 5).1
      ⟨fm_c7, by decide, by decide⟩ (by decide),
   (get_biometric_scan_data_admin_only s_c7 (some 2) 5).2.1 (by decide)⟩

/-- Membership characterization of `get_safe_photos`: a safe row is
returned exactly when it is the projection of a stored photo whose parent
event is visible to the caller and which passes the optional event
filter. -/
theorem mem_get_safe_photos_iff (s : DBState) (c : Option UserId)
    (f : Option EventId) (sp : SafePhoto) :
    sp ∈ get_safe_photos s c f ↔
      ∃ p ∈ s.photos, toSafePhoto p = sp
        ∧ (∃ e ∈ s.events, e.id = p.event_id
            ∧ (e.visibility = Visibility.publicV ∨ c ≠ none))
        ∧ (f = none ∨ f = some p.event_id) := by
  unfold get_safe_photos
  rw [List.mem_map]
  constructor
  · rintro ⟨p, hp, rfl⟩
    have hp' := (List.perm_insertionSort
      (fun a b : Photo => b.created_at ≤ a.created_at) _).mem_iff.mp hp
    rcases List.mem_filter.mp hp' with ⟨hmem, hpred⟩
    simp only [Bool.and_eq_true, List.any_eq_true, Bool.or_eq_true,
      beq_iff_eq, Option.isSome_iff_ne_none] at hpred
    rcases hpred with ⟨⟨e, hemem, heid, hevis⟩, hfil⟩
    exact ⟨p, hmem, rfl, ⟨e, hemem, heid, hevis⟩, hfil⟩
  · rintro ⟨p, hmem, rfl, ⟨e, hemem, heid, hevis⟩, hfil⟩
    refine ⟨p, ?_, rfl⟩
    rw [(List.perm_insertionSort
      (fun a b : Photo => b.created_at ≤ a.created_at) _).mem_iff]
    refine List.mem_filter.mpr ⟨hmem, ?_⟩
    simp only [Bool.and_eq_true, List.any_eq_true, Bool.or_eq_true,
      beq_iff_eq, Option.isSome_iff_ne_none]
    exact ⟨⟨e, hemem, heid, hevis⟩, hfil⟩

/-- Claim C9: `get_safe_photos` returns rows of a shape without the
`face_data` column (each row is the `toSafePhoto` projection of a stored
photo), contains exactly the photos whose parent event has `public`
visibility or for which the caller is authenticated, restricted by the
optional event filter, and is ordered by `created_at` descending. -/
theorem get_safe_photos_spec (s : DBState) (c : Option UserId)
    (f : Option EventId) :
    (∀ sp, sp ∈ get_safe_photos s c f ↔
      ∃ p ∈ s.photos, toSafePhoto p = sp
        ∧ (∃ e ∈ s.events, e.id = p.event_id
            ∧ (e.visibility = Visibility.publicV ∨ c ≠ none))
        ∧ (f = none ∨ f = some p.event_id))
    ∧ (get_safe_photos s c f).Sorted
        (fun a b : SafePhoto => b.created_at ≤ a.created_at) := by
  refine ⟨fun sp => mem_get_safe_photos_iff s c f sp, ?_⟩
  have hs := List.sorted_insertionSort
    (fun a b : Photo => b.created_at ≤ a.created_at)
    (s.photos.filter (fun p =>
      s.events.any (fun e =>
        e.id == p.event_id && (e.visibility == Visibility.publicV || c.isSome))
      && (f == none || f == some p.event_id)))
  exact List.pairwise_map.mpr hs

/-- Claim C8, counterexample: with a public event holding one photo, the
photo list operation returns a nonempty result to an unauthenticated
caller, so it is not the case that every list operation returns empty
results for callers with no identity. -/
theorem get_safe_photos_nonempty_for_unauthenticated :
    get_safe_photos s_c8 none none ≠ [] := by
  decide

/-- Claim C8 as amended: for an unauthenticated caller every operation
yields its denial value without an error: the role resolver returns no
role (both for an absent identity and for an identity with no profile),
`can_access_face_match` returns `false`, the face-match list operation
returns empty, and the photo list operation returns exactly the photos of
`public` events. -/
theorem unauthenticated_calls_are_denied (s : DBState) :
    get_user_role s none = none
    ∧ (∀ u : UserId, (∀ p ∈ s.profiles, p.user_id ≠ u) →
        get_user_role s (some u) = none)
    ∧ (∀ now muid mid, (can_access_face_match s none now muid mid).1 = false)
    ∧ (∀ now target, get_user_face_matches s none now target = [])
    ∧ (∀ f sp, sp ∈ get_safe_photos s none f ↔
        ∃ p ∈ s.photos, toSafePhoto p = sp
          ∧ (∃ e ∈ s.events, e.id = p.event_id
              ∧ e.visibility = Visibility.publicV)
          ∧ (f = none ∨ f = some p.event_id)) := by
  refine ⟨rfl, ?_, fun _ _ _ => rfl, ?_, ?_⟩
  · intro u h
    have hfind : s.profiles.find? (fun p => p.user_id == u) = none :=
      List.find?_eq_none.mpr fun p hp hbeq => h p hp (by simpa using hbeq)
    simp [get_user_role, hfind]
  · intro now target
    unfold get_user_face_matches
    cases target with
    | none =>
        have : s.face_matches.filter (fun fm => some fm.user_id == none) = [] :=
          List.filter_eq_nil_iff.mpr fun fm _ => by simp
        simp [this]
    | some t =>
        have : s.face_matches.filter
            (fun fm => (can_access_face_match s none now t fm.id).1) = [] :=
          List.filter_eq_nil_iff.mpr fun fm _ => by
            simp [can_access_face_match, log_and_return]
        simp [this]
  · intro f sp
    rw [mem_get_safe_photos_iff]
    simp

/-- Witness for `unauthenticated_calls_are_denied` at the concrete state
`s_c8` and identity 7 (which has no profile): the role resolver yields no
role, `can_access_face_match` yields `false`, the face-match list is empty,
and the public photo of `s_c8` is returned to the unauthenticated photo
list caller. -/
theorem unauthenticated_calls_are_denied_witness :
    get_user_role s_c8 (some 7) = none
    ∧ (can_access_face_match s_c8 none 0 1 2).1 = false
    ∧ get_user_face_matches s_c8 none 0 none = []
    ∧ toSafePhoto photo_c8 ∈ get_safe_photos s_c8 none none :=
  ⟨(unauthenticated_calls_are_denied s_c8).2.1 7 (by decide),
   (unauthenticated_calls_are_denied s_c8).2.2.1 0 1 2,
   (unauthenticated_calls_are_denied s_c8).2.2.2.1 0 none,
   ((unauthenticated_calls_are_denied s_c8).2.2.2.2 none
       (toSafePhoto photo_c8)).mpr
     ⟨photo_c8, by decide, rfl, ⟨event_c8, by decide, rfl, rfl⟩, Or.inl rfl⟩⟩

end PhotoFaceMagic
